import Mathlib

/-!
Shallow embedding of roc_netio EventLoop
(src/src/modules/roc_netio/target_libuv/roc_netio/event_loop.cpp).

The event loop serializes all mutation of its port registry and task queue
under a single mutex, so we model it as a sequential state machine:

* ports are identified by natural numbers (`PortId`); a `PortModel` records
  the environment-determined behaviour of a concrete port object (whether
  `open()` succeeds, the address it binds, and whether `async_close()`
  returns true, i.e. needs asynchronous completion);
* the loop state (`LoopState`) carries `open_ports`, `closing_ports`, the
  two wakeup-handle flags and the start flag;
* condition-variable waits are modelled by their loop predicate: a wait
  consumes a list of environment events (close completions delivered by the
  loop thread through `handle_closed`) until the predicate turns false, and
  yields `none` when the events run out (the caller blocks forever);
* calls that can abort return an `Outcome`, with `Outcome.panic` standing
  for `roc_panic`.
-/

namespace RocNetio

/-- Model of roc address::SocketAddr: host and port numbers. -/
structure SocketAddr where
  host : Nat
  port : Nat
deriving DecidableEq, Repr

/-- Task states, as in EventLoop::TaskState. -/
inductive TaskState where
  | Pending
  | Succeeded
  | Failed
deriving DecidableEq, Repr

/-- Ports are identified by numbers; a PortId stands for a BasicPort object. -/
abbrev PortId := Nat

/-- Environment-determined behaviour of one port object: the result of
`open()`, the address `address()` reports after open, and the result of
`async_close()` (true means completion is asynchronous and will be reported
through `handle_closed`). -/
structure PortModel where
  openOk : Bool
  boundAddr : SocketAddr
  asyncCloseNeeded : Bool
deriving DecidableEq, Repr

/-- Result of a call that may abort (roc_panic) or block forever. -/
inductive Outcome (α : Type) where
  | ok (a : α)
  | panic (msg : String)
  | blocked
deriving DecidableEq, Repr

/-- Mutable EventLoop state guarded by the mutex, plus the construction
flags. The libuv wakeup handles are abstracted to their initialization
flags (task_sem_initialized_, stop_sem_initialized_ in the source). -/
structure LoopState where
  started : Bool := true
  open_ports : List PortId := []
  closing_ports : List PortId := []
  task_sem_inited : Bool := true
  stop_sem_inited : Bool := true
deriving DecidableEq, Repr

/-- EventLoop::num_ports: size of open_ports. -/
def num_ports (st : LoopState) : Nat :=
  st.open_ports.length

/-- EventLoop::handle_closed: if the port is not in closing_ports, return
without touching anything; otherwise remove it and broadcast close_cond.
The returned Bool records whether close_cond was broadcast. -/
def handle_closed (st : LoopState) (p : PortId) : LoopState × Bool :=
  if p ∈ st.closing_ports then
    ({ st with closing_ports := st.closing_ports.erase p }, true)
  else
    (st, false)

/-- EventLoop::async_close_port_: if port.async_close() returns false the
port is already closed and nothing happens; otherwise the port is appended
to closing_ports. -/
def async_close_port_ (ports : PortId → PortModel) (st : LoopState) (p : PortId) :
    LoopState :=
  if (ports p).asyncCloseNeeded then
    { st with closing_ports := st.closing_ports ++ [p] }
  else
    st

/-- EventLoop::wait_port_closed_: while the port is in closing_ports, wait
on close_cond. Each wakeup corresponds to the loop thread running
handle_closed for some port (the event list); `none` models blocking
forever because no further close completion arrives. -/
def wait_port_closed_ : List PortId → LoopState → PortId → Option LoopState
  | [], st, p =>
      if p ∈ st.closing_ports then none else some st
  | e :: rest, st, p =>
      if p ∈ st.closing_ports then
        wait_port_closed_ rest (handle_closed st e).1 p
      else
        some st

/-- Modelled from the spec: core::List::remove (roc_core/list.h, a file of
this repository not under src/). Removing an element that is not a member
of the list is a programming error: the list aborts. The spec records the
visible consequence in section 7: unknown handle in remove_port is a
programming error (abort). -/
def listRemove (l : List PortId) (p : PortId) : Outcome (List PortId) :=
  if p ∈ l then .ok (l.erase p) else .panic "list: element is not member of this list"

/-- UdpReceiverConfig: the field the loop reads and writes is bind_address. -/
structure UdpReceiverConfig where
  bind_address : SocketAddr
deriving DecidableEq, Repr

/-- UdpSenderConfig: the field the loop reads and writes is bind_address. -/
structure UdpSenderConfig where
  bind_address : SocketAddr
deriving DecidableEq, Repr

/-- EventLoop::add_udp_receiver_ task handler. `alloc` is the result of
placement new in the allocator: `none` models allocation failure, `some rp`
a freshly allocated UdpReceiverPort. Returns the task state, the value of
task.port, the (possibly rewritten) config, and the new loop state. -/
def add_udp_receiver_ (alloc : Option PortId) (ports : PortId → PortModel)
    (cfg : UdpReceiverConfig) (st : LoopState) :
    TaskState × Option PortId × UdpReceiverConfig × LoopState :=
  match alloc with
  | none => (.Failed, none, cfg, st)
  | some rp =>
      if (ports rp).openOk then
        (.Succeeded, some rp, { cfg with bind_address := (ports rp).boundAddr },
          { st with open_ports := st.open_ports ++ [rp] })
      else
        (.Failed, some rp, cfg, async_close_port_ ports st rp)

/-- EventLoop::add_udp_sender_ task handler. Like the receiver handler but
also publishes the port itself as the task.port_writer output (the source
stores sp.get(), the sender port, as the writer). -/
def add_udp_sender_ (alloc : Option PortId) (ports : PortId → PortModel)
    (cfg : UdpSenderConfig) (st : LoopState) :
    TaskState × Option PortId × Option PortId × UdpSenderConfig × LoopState :=
  match alloc with
  | none => (.Failed, none, none, cfg, st)
  | some sp =>
      if (ports sp).openOk then
        (.Succeeded, some sp, some sp, { cfg with bind_address := (ports sp).boundAddr },
          { st with open_ports := st.open_ports ++ [sp] })
      else
        (.Failed, some sp, none, cfg, async_close_port_ ports st sp)

/-- EventLoop::remove_port_ task handler: remove the port from open_ports
(the registry remove aborts if it is not a member), start its asynchronous
close, and return Succeeded. -/
def remove_port_ (ports : PortId → PortModel) (st : LoopState) (p : PortId) :
    Outcome (TaskState × LoopState) :=
  match listRemove st.open_ports p with
  | .ok l => .ok (.Succeeded, async_close_port_ ports { st with open_ports := l } p)
  | .panic m => .panic m
  | .blocked => .blocked

/-- EventLoop::add_udp_receiver, the full public call: panic on an invalid
loop, run the add-receiver task, and on failure wait for a partially
created port to finish closing before returning null. The returned value
carries the PortHandle (none models NULL), the config after the call, and
the loop state after the call. `closeEvents` are the close completions the
loop thread delivers while the caller waits. -/
def add_udp_receiver (alloc : Option PortId) (ports : PortId → PortModel)
    (st : LoopState) (cfg : UdpReceiverConfig) (closeEvents : List PortId) :
    Outcome (Option PortId × UdpReceiverConfig × LoopState) :=
  if st.started then
    match add_udp_receiver_ alloc ports cfg st with
    | (ts, port, cfg1, st1) =>
        if ts = .Failed then
          match port with
          | some p =>
              match wait_port_closed_ closeEvents st1 p with
              | some st2 => .ok (none, cfg1, st2)
              | none => .blocked
          | none => .ok (none, cfg1, st1)
        else
          match port with
          | some p => .ok (some p, cfg1, st1)
          | none => .panic "roc_panic_if: task.port is null"
  else
    .panic "event loop: cannot use invalid loop"

/-- EventLoop::add_udp_sender, the full public call. `writerSlot` models
the `packet::IWriter** writer` argument: the outer Option is pointer
nullness, the inner Option the pointed-to value before the call. The
returned tuple carries the handle, the config, the writer slot after the
call, and the loop state. -/
def add_udp_sender (alloc : Option PortId) (ports : PortId → PortModel)
    (st : LoopState) (cfg : UdpSenderConfig) (writerSlot : Option (Option PortId))
    (closeEvents : List PortId) :
    Outcome (Option PortId × UdpSenderConfig × Option (Option PortId) × LoopState) :=
  if st.started then
    match add_udp_sender_ alloc ports cfg st with
    | (ts, port, port_writer, cfg1, st1) =>
        if ts = .Failed then
          match port with
          | some p =>
              match wait_port_closed_ closeEvents st1 p with
              | some st2 => .ok (none, cfg1, writerSlot, st2)
              | none => .blocked
          | none => .ok (none, cfg1, writerSlot, st1)
        else
          match port with
          | some p =>
              .ok (some p, cfg1, writerSlot.map (fun _ => port_writer), st1)
          | none => .panic "roc_panic_if: task.port is null"
  else
    .panic "event loop: cannot use invalid loop"

/-- EventLoop::remove_port, the full public call: panic on an invalid loop
or a null handle, run the remove task, panic if the task failed, then wait
for the port to leave closing_ports. Besides the outcome it returns the
trace of values assigned to task.state during the call (process_tasks_
writes the handler result once; a handler abort writes nothing). -/
def remove_port (ports : PortId → PortModel) (st : LoopState)
    (handle : Option PortId) (closeEvents : List PortId) :
    Outcome LoopState × List TaskState :=
  if st.started then
    match handle with
    | none => (.panic "event loop: handle is null", [])
    | some p =>
        match remove_port_ ports st p with
        | .panic m => (.panic m, [])
        | .blocked => (.blocked, [])
        | .ok (ts, st1) =>
            if ts = .Failed then
              (.panic "event loop: cannot remove port: unknown port", [ts])
            else
              match wait_port_closed_ closeEvents st1 p with
              | some st2 => (.ok st2, [ts])
              | none => (.blocked, [ts])
  else
    (.panic "event loop: cannot use invalid loop", [])

/-- Task kinds, standing for the four task.func function pointers. -/
inductive TaskFunc where
  | AddReceiver
  | AddSender
  | RemovePort
  | Resolve
deriving DecidableEq, Repr

/-- EventLoop::Task: the caller-filled task record. `tid` is a ghost
identity used to state ordering properties; the remaining fields mirror
the source fields (state, port, port_writer, the configs, and the resolve
request result). -/
structure Task where
  tid : Nat := 0
  func : TaskFunc
  state : TaskState := .Pending
  port : Option PortId := none
  port_writer : Option PortId := none
  receiver_config : UdpReceiverConfig := ⟨⟨0, 0⟩⟩
  sender_config : UdpSenderConfig := ⟨⟨0, 0⟩⟩
  resolve_success : Bool := false
deriving DecidableEq, Repr

/-- Environment fixing the behaviour of the external collaborators during
one dispatch: the allocator result for add tasks, the behaviour of every
port object, and the resolver. `resolveSync` is true when async_resolve
returns false (the request completed synchronously), in which case
`resolveOk` is the value of req.success. -/
structure Env where
  alloc : Option PortId
  ports : PortId → PortModel
  resolveSync : Bool
  resolveOk : Bool

/-- Running one task handler on the loop thread: the body of
`task->state = (this->*(task->func))(*task)` in process_tasks_. Returns
the loop state and the task with its outputs and new state stored. The
resolve handler hands the request to the resolver and returns Pending when
the resolver queued it asynchronously. -/
def dispatch (env : Env) (st : LoopState) (t : Task) : Outcome (LoopState × Task) :=
  match t.func with
  | .AddReceiver =>
      match add_udp_receiver_ env.alloc env.ports t.receiver_config st with
      | (ts, port, cfg1, st1) =>
          .ok (st1, { t with state := ts, port := port, receiver_config := cfg1 })
  | .AddSender =>
      match add_udp_sender_ env.alloc env.ports t.sender_config st with
      | (ts, port, pw, cfg1, st1) =>
          .ok (st1, { t with state := ts, port := port, port_writer := pw,
                             sender_config := cfg1 })
  | .RemovePort =>
      match t.port with
      | none => .panic "null port in remove task"
      | some p =>
          match remove_port_ env.ports st p with
          | .ok (ts, st1) => .ok (st1, { t with state := ts })
          | .panic m => .panic m
          | .blocked => .blocked
  | .Resolve =>
      if env.resolveSync then
        .ok (st, { t with state := if env.resolveOk then .Succeeded else .Failed,
                          resolve_success := env.resolveOk })
      else
        .ok (st, { t with state := .Pending })

/-- The drain loop of EventLoop::process_tasks_: pop tasks in FIFO order,
run each handler, record the resulting state, and remember whether any
task left Pending. Accumulates the processed tasks in reverse. -/
def processGo (env : Env) :
    List Task → LoopState → List Task → Bool → Outcome (LoopState × List Task × Bool)
  | [], st, acc, notify => .ok (st, acc.reverse, notify)
  | t :: rest, st, acc, notify =>
      match dispatch env st t with
      | .ok (st1, t1) =>
          processGo env rest st1 (t1 :: acc) (notify || decide (t1.state ≠ .Pending))
      | .panic m => .panic m
      | .blocked => .blocked

/-- EventLoop::process_tasks_: drain the whole queue, then broadcast
task_cond once if some task transitioned out of Pending. The Nat in the
result counts the broadcasts of task_cond performed by this drain. -/
def process_tasks_ (env : Env) (st : LoopState) (q : List Task) :
    Outcome (LoopState × List Task × Nat) :=
  match processGo env q st [] false with
  | .ok (st1, outs, notify) => .ok (st1, outs, if notify then 1 else 0)
  | .panic m => .panic m
  | .blocked => .blocked

/-- EventLoop::run_task_ as observed by the submitting thread: the task is
enqueued and the loop thread drains a queue containing it; the caller then
waits on task_cond while task.state is Pending. A task left Pending by its
handler (an asynchronously queued resolve) is completed later by
handle_resolved, modelled by `resolveCompletion` (`none` when no completion
ever arrives, in which case the caller blocks forever). The result also
returns the trace of values written to task.state. -/
def run_task_ (env : Env) (st : LoopState) (t : Task) (resolveCompletion : Option Bool) :
    Outcome (LoopState × TaskState) × List TaskState :=
  match process_tasks_ env st [t] with
  | .panic m => (.panic m, [])
  | .blocked => (.blocked, [])
  | .ok (st1, outs, _) =>
      match outs with
      | [t1] =>
          if t1.state = .Pending then
            match resolveCompletion with
            | some ok =>
                let s : TaskState := if ok then .Succeeded else .Failed
                (.ok (st1, s), [t1.state, s])
            | none => (.blocked, [t1.state])
          else
            (.ok (st1, t1.state), [t1.state])
      | _ => (.blocked, [])

/-- The while loop of EventLoop::async_close_ports_: take the front of
open_ports, remove it, and start its asynchronous close, until open_ports
is empty. The list argument is the current open_ports contents. -/
def acpGo (ports : PortId → PortModel) : List PortId → LoopState → LoopState
  | [], st => st
  | p :: rest, st =>
      acpGo ports rest (async_close_port_ ports { st with open_ports := rest } p)

/-- EventLoop::async_close_ports_: move every open port into the
async-close pipeline. -/
def async_close_ports_ (ports : PortId → PortModel) (st : LoopState) : LoopState :=
  acpGo ports st.open_ports st

/-- EventLoop::close_sems_: close both wakeup handles and mark them
uninitialized. -/
def close_sems_ (st : LoopState) : LoopState :=
  { st with task_sem_inited := false, stop_sem_inited := false }

/-- EventLoop::stop_sem_cb_: on the stop wakeup, close all open ports,
close both wakeup handles, then drain the remaining task queue once
more. -/
def stop_sem_cb_ (env : Env) (st : LoopState) (q : List Task) :
    Outcome (LoopState × List Task × Nat) :=
  process_tasks_ env (close_sems_ (async_close_ports_ env.ports st)) q

/-- Abstract actions the destructor can perform, in the order it performs
them. -/
inductive DtorAction where
  | SignalStopSem
  | CloseSems
  | JoinThread
  | RunLoop
  | CloseLoop
deriving DecidableEq, Repr

/-- The control flow of EventLoop::~EventLoop as a sequence of actions,
determined by the started_ and loop_initialized_ flags: a started loop is
stopped by signalling the stop wakeup and joined; a never-started loop has
its wakeups closed directly and the reactor run once on the current thread
before uv_loop_close. -/
def destructorActions (started loopInited : Bool) : List DtorAction :=
  (if started then [.SignalStopSem] else [.CloseSems]) ++
    (if loopInited then
      (if started then [.JoinThread] else [.RunLoop]) ++ [.CloseLoop]
     else [])

/-! Concrete fixtures used to evaluate the definitions on closed inputs:
a port environment with one port of each behaviour (port 0 opens and
closes synchronously, port 1 opens and closes asynchronously, port 2
fails to open and closes asynchronously, every other port fails to open
and closes synchronously), and a few small loop states. -/

/-- A concrete port environment exercising all port behaviours. -/
def portsA : PortId → PortModel := fun p =>
  if p = 0 then { openOk := true, boundAddr := ⟨1, 1000⟩, asyncCloseNeeded := false }
  else if p = 1 then { openOk := true, boundAddr := ⟨1, 1001⟩, asyncCloseNeeded := true }
  else if p = 2 then { openOk := false, boundAddr := ⟨1, 1002⟩, asyncCloseNeeded := true }
  else { openOk := false, boundAddr := ⟨1, 1003⟩, asyncCloseNeeded := false }

/-- A freshly started loop with no ports. -/
def stEmpty : LoopState := {}

/-- A loop in which port 1 is waiting for its asynchronous close. -/
def stClosing1 : LoopState := { closing_ports := [1] }

/-- A loop with ports 0 and 1 open. -/
def stOpen01 : LoopState := { open_ports := [0, 1] }

/-- A concrete environment: allocation yields port 1 and the resolver
completes synchronously with success. -/
def envA : Env := { alloc := some 1, ports := portsA, resolveSync := true, resolveOk := true }

/-- A two-task queue: an add-receiver task and a resolve task. -/
def qA : List Task := [{ tid := 10, func := .AddReceiver }, { tid := 11, func := .Resolve }]

/-- A loop with port 1 open: the state produced by draining qA from the
empty loop. -/
def stOpen1 : LoopState := { open_ports := [1] }

/-- The processed tasks of qA: the receiver task succeeded with port 1 and
the rewritten bind address, the resolve task succeeded synchronously. -/
def outsA : List Task :=
  [{ tid := 10, func := .AddReceiver, state := .Succeeded, port := some 1,
     receiver_config := ⟨⟨1, 1001⟩⟩ },
   { tid := 11, func := .Resolve, state := .Succeeded, resolve_success := true }]

/-- A one-task queue holding a resolve task, pending at stop time. -/
def qB : List Task := [{ tid := 7, func := .Resolve }]

/-- The loop state after the stop wakeup ran on stOpen01: no open ports,
port 1 awaiting its asynchronous close, both wakeup handles closed. -/
def stB : LoopState :=
  { open_ports := [], closing_ports := [1],
    task_sem_inited := false, stop_sem_inited := false }

/-- The processed tasks of qB: the resolve task completed synchronously. -/
def outsB : List Task :=
  [{ tid := 7, func := .Resolve, state := .Succeeded, resolve_success := true }]

/-! Helper lemmas. -/

/-- handle_closed touches only closing_ports. -/
theorem handle_closed_frame (st : LoopState) (p : PortId) :
    ((handle_closed st p).1).open_ports = st.open_ports ∧
    ((handle_closed st p).1).started = st.started ∧
    ((handle_closed st p).1).task_sem_inited = st.task_sem_inited ∧
    ((handle_closed st p).1).stop_sem_inited = st.stop_sem_inited := by
  unfold handle_closed
  split <;> exact ⟨rfl, rfl, rfl, rfl⟩

/-- When wait_port_closed_ returns, the awaited port has left
closing_ports. -/
theorem wait_port_closed_not_mem :
    ∀ (events : List PortId) (st : LoopState) (p : PortId) (st' : LoopState),
      wait_port_closed_ events st p = some st' → p ∉ st'.closing_ports := by
  intro events
  induction events with
  | nil =>
      intro st p st' h
      unfold wait_port_closed_ at h
      by_cases hm : p ∈ st.closing_ports
      · rw [if_pos hm] at h; cases h
      · rw [if_neg hm] at h
        cases h
        exact hm
  | cons e rest ih =>
      intro st p st' h
      unfold wait_port_closed_ at h
      by_cases hm : p ∈ st.closing_ports
      · rw [if_pos hm] at h
        exact ih _ p st' h
      · rw [if_neg hm] at h
        cases h
        exact hm

/-- wait_port_closed_ touches only closing_ports. -/
theorem wait_port_closed_frame :
    ∀ (events : List PortId) (st : LoopState) (p : PortId) (st' : LoopState),
      wait_port_closed_ events st p = some st' →
      st'.open_ports = st.open_ports ∧ st'.started = st.started ∧
      st'.task_sem_inited = st.task_sem_inited ∧
      st'.stop_sem_inited = st.stop_sem_inited := by
  intro events
  induction events with
  | nil =>
      intro st p st' h
      unfold wait_port_closed_ at h
      by_cases hm : p ∈ st.closing_ports
      · rw [if_pos hm] at h; cases h
      · rw [if_neg hm] at h; cases h; exact ⟨rfl, rfl, rfl, rfl⟩
  | cons e rest ih =>
      intro st p st' h
      unfold wait_port_closed_ at h
      by_cases hm : p ∈ st.closing_ports
      · rw [if_pos hm] at h
        obtain ⟨h1, h2, h3, h4⟩ := ih _ p st' h
        obtain ⟨g1, g2, g3, g4⟩ := handle_closed_frame st e
        exact ⟨h1.trans g1, h2.trans g2, h3.trans g3, h4.trans g4⟩
      · rw [if_neg hm] at h; cases h; exact ⟨rfl, rfl, rfl, rfl⟩

/-- async_close_port_ touches only closing_ports, appending the port
exactly when its close is asynchronous. -/
theorem async_close_port_spec (ports : PortId → PortModel) (st : LoopState) (p : PortId) :
    (async_close_port_ ports st p).open_ports = st.open_ports ∧
    (async_close_port_ ports st p).started = st.started ∧
    (async_close_port_ ports st p).task_sem_inited = st.task_sem_inited ∧
    (async_close_port_ ports st p).stop_sem_inited = st.stop_sem_inited ∧
    (async_close_port_ ports st p).closing_ports =
      (if (ports p).asyncCloseNeeded then st.closing_ports ++ [p] else st.closing_ports) := by
  unfold async_close_port_
  split <;> simp_all

/-- The remove handler never fails: when it returns normally it returns
Succeeded, leaves the wakeup flags alone, and it returns normally exactly
when the port was a member of open_ports. -/
theorem remove_port_ok (ports : PortId → PortModel) (st : LoopState) (p : PortId)
    (ts : TaskState) (st1 : LoopState) (h : remove_port_ ports st p = .ok (ts, st1)) :
    ts = .Succeeded ∧ st1.started = st.started ∧
    st1.task_sem_inited = st.task_sem_inited ∧
    st1.stop_sem_inited = st.stop_sem_inited := by
  unfold remove_port_ listRemove at h
  by_cases hm : p ∈ st.open_ports
  · rw [if_pos hm] at h
    simp only [Outcome.ok.injEq, Prod.mk.injEq] at h
    obtain ⟨h1, h2⟩ := h
    obtain ⟨_, g2, g3, g4, _⟩ :=
      async_close_port_spec ports { st with open_ports := st.open_ports.erase p } p
    rw [← h2]
    exact ⟨h1.symm, g2, g3, g4⟩
  · rw [if_neg hm] at h
    cases h

/-- remove_port_ aborts exactly on a non-member port. -/
theorem remove_port_unknown_panics (ports : PortId → PortModel) (st : LoopState)
    (p : PortId) (hm : p ∉ st.open_ports) :
    remove_port_ ports st p = .panic "list: element is not member of this list" := by
  unfold remove_port_ listRemove
  rw [if_neg hm]

/-- The add-receiver handler leaves the start and wakeup flags alone. -/
theorem add_udp_receiver_frame (alloc : Option PortId) (ports : PortId → PortModel)
    (cfg : UdpReceiverConfig) (st : LoopState) :
    (add_udp_receiver_ alloc ports cfg st).2.2.2.started = st.started ∧
    (add_udp_receiver_ alloc ports cfg st).2.2.2.task_sem_inited = st.task_sem_inited ∧
    (add_udp_receiver_ alloc ports cfg st).2.2.2.stop_sem_inited = st.stop_sem_inited := by
  unfold add_udp_receiver_
  cases alloc with
  | none => exact ⟨rfl, rfl, rfl⟩
  | some rp =>
      by_cases ho : (ports rp).openOk
      · simp [ho]
      · simp only [ho, Bool.false_eq_true, if_false]
        obtain ⟨_, g2, g3, g4, _⟩ := async_close_port_spec ports st rp
        exact ⟨g2, g3, g4⟩

/-- The add-sender handler leaves the start and wakeup flags alone. -/
theorem add_udp_sender_frame (alloc : Option PortId) (ports : PortId → PortModel)
    (cfg : UdpSenderConfig) (st : LoopState) :
    (add_udp_sender_ alloc ports cfg st).2.2.2.2.started = st.started ∧
    (add_udp_sender_ alloc ports cfg st).2.2.2.2.task_sem_inited = st.task_sem_inited ∧
    (add_udp_sender_ alloc ports cfg st).2.2.2.2.stop_sem_inited = st.stop_sem_inited := by
  unfold add_udp_sender_
  cases alloc with
  | none => exact ⟨rfl, rfl, rfl⟩
  | some sp =>
      by_cases ho : (ports sp).openOk
      · simp [ho]
      · simp only [ho, Bool.false_eq_true, if_false]
        obtain ⟨_, g2, g3, g4, _⟩ := async_close_port_spec ports st sp
        exact ⟨g2, g3, g4⟩

/-- Running one handler keeps the ghost task identity and the start and
wakeup flags. -/
theorem dispatch_frame (env : Env) (st : LoopState) (t : Task) (st1 : LoopState)
    (t1 : Task) (h : dispatch env st t = .ok (st1, t1)) :
    t1.tid = t.tid ∧ st1.started = st.started ∧
    st1.task_sem_inited = st.task_sem_inited ∧
    st1.stop_sem_inited = st.stop_sem_inited := by
  unfold dispatch at h
  cases hf : t.func with
  | AddReceiver =>
      rw [hf] at h
      obtain ⟨g1, g2, g3⟩ := add_udp_receiver_frame env.alloc env.ports t.receiver_config st
      rcases hA : add_udp_receiver_ env.alloc env.ports t.receiver_config st with
        ⟨ts, port, cfg1, stx⟩
      rw [hA] at h g1 g2 g3
      simp only [Outcome.ok.injEq, Prod.mk.injEq] at h
      obtain ⟨h1, h2⟩ := h
      subst h1
      rw [← h2]
      exact ⟨rfl, g1, g2, g3⟩
  | AddSender =>
      rw [hf] at h
      obtain ⟨g1, g2, g3⟩ := add_udp_sender_frame env.alloc env.ports t.sender_config st
      rcases hA : add_udp_sender_ env.alloc env.ports t.sender_config st with
        ⟨ts, port, pw, cfg1, stx⟩
      rw [hA] at h g1 g2 g3
      simp only [Outcome.ok.injEq, Prod.mk.injEq] at h
      obtain ⟨h1, h2⟩ := h
      subst h1
      rw [← h2]
      exact ⟨rfl, g1, g2, g3⟩
  | RemovePort =>
      simp only [hf] at h
      cases hp : t.port with
      | none => rw [hp] at h; cases h
      | some p =>
          simp only [hp] at h
          cases hR : remove_port_ env.ports st p with
          | ok pr =>
              obtain ⟨ts, stx⟩ := pr
              rw [hR] at h
              simp only [Outcome.ok.injEq, Prod.mk.injEq] at h
              obtain ⟨h1, h2⟩ := h
              obtain ⟨_, g2, g3, g4⟩ := remove_port_ok env.ports st p ts stx hR
              subst h1
              rw [← h2]
              exact ⟨rfl, g2, g3, g4⟩
          | panic m => rw [hR] at h; cases h
          | blocked => rw [hR] at h; cases h
  | Resolve =>
      rw [hf] at h
      by_cases hs : env.resolveSync
      · rw [if_pos hs] at h
        simp only [Outcome.ok.injEq, Prod.mk.injEq] at h
        obtain ⟨h1, h2⟩ := h
        subst h1
        rw [← h2]
        exact ⟨rfl, rfl, rfl, rfl⟩
      · rw [if_neg hs] at h
        simp only [Outcome.ok.injEq, Prod.mk.injEq] at h
        obtain ⟨h1, h2⟩ := h
        subst h1
        rw [← h2]
        exact ⟨rfl, rfl, rfl, rfl⟩

/-- The drain loop pops every task once, in order: the processed output
extends the accumulator by one dispatched task per input task, keeping
the submission order and the start and wakeup flags, and the notify flag
records whether some processed task left Pending. -/
theorem processGo_spec (env : Env) :
    ∀ (q : List Task) (st : LoopState) (acc : List Task) (notify : Bool)
      (st' : LoopState) (outs : List Task) (notify' : Bool),
      processGo env q st acc notify = .ok (st', outs, notify') →
      ∃ processed : List Task,
        outs = acc.reverse ++ processed ∧
        processed.map Task.tid = q.map Task.tid ∧
        notify' = (notify || processed.any fun t => decide (t.state ≠ .Pending)) ∧
        st'.started = st.started ∧
        st'.task_sem_inited = st.task_sem_inited ∧
        st'.stop_sem_inited = st.stop_sem_inited := by
  intro q
  induction q with
  | nil =>
      intro st acc notify st' outs notify' h
      unfold processGo at h
      simp only [Outcome.ok.injEq, Prod.mk.injEq] at h
      obtain ⟨h1, h2, h3⟩ := h
      subst h1
      refine ⟨[], ?_, rfl, ?_, rfl, rfl, rfl⟩
      · rw [← h2, List.append_nil]
      · rw [← h3, List.any_nil, Bool.or_false]
  | cons t rest ih =>
      intro st acc notify st' outs notify' h
      unfold processGo at h
      cases hd : dispatch env st t with
      | panic m => rw [hd] at h; cases h
      | blocked => rw [hd] at h; cases h
      | ok pr =>
          obtain ⟨st1, t1⟩ := pr
          rw [hd] at h
          obtain ⟨processed, ho, hm, hn, hf1, hf2, hf3⟩ :=
            ih st1 (t1 :: acc) (notify || decide (t1.state ≠ .Pending)) st' outs notify' h
          obtain ⟨g1, g2, g3, g4⟩ := dispatch_frame env st t st1 t1 hd
          refine ⟨t1 :: processed, ?_, ?_, ?_, ?_, ?_, ?_⟩
          · rw [ho, List.reverse_cons, List.append_assoc, List.singleton_append]
          · rw [List.map_cons, hm, List.map_cons, g1]
          · rw [hn, List.any_cons, Bool.or_assoc]
          · rw [hf1, g2]
          · rw [hf2, g3]
          · rw [hf3, g4]

/-! Claim theorems. -/

/-- C1 counterexample: calling remove_port on a valid empty loop with the
unknown handle 5 aborts, but not the way the claim states: the trace of
values written to the task state is empty, so the remove task never enters
the Failed state, and the panic raised is the registry membership panic,
not the unknown-port panic that guards the Failed state in remove_port. -/
theorem remove_port_unknown_cex :
    (remove_port portsA stEmpty (some 5) []).2.contains .Failed = false ∧
    (remove_port portsA stEmpty (some 5) []).1 =
      .panic "list: element is not member of this list" ∧
    (remove_port portsA stEmpty (some 5) []).1 ≠
      .panic "event loop: cannot remove port: unknown port" := by
  decide

/-- C1 (amended): for every call to remove_port on a valid loop with a
non-null handle that is not a member of open_ports, the call is a
programming error and aborts with a panic instead of returning; the panic
is raised by the registry removal inside the remove handler, before any
task state is recorded, so the remove task never ends in the Failed state
(whenever the remove handler returns normally it returns Succeeded). -/
theorem remove_port_unknown_spec (ports : PortId → PortModel) (st : LoopState)
    (p : PortId) (events : List PortId)
    (hs : st.started = true) (hm : p ∉ st.open_ports) :
    (remove_port ports st (some p) events).1 =
      .panic "list: element is not member of this list" ∧
    (remove_port ports st (some p) events).2 = [] ∧
    ∀ (st0 : LoopState) (q : PortId) (ts : TaskState) (st1 : LoopState),
      remove_port_ ports st0 q = .ok (ts, st1) → ts = .Succeeded := by
  have hp := remove_port_unknown_panics ports st p hm
  refine ⟨?_, ?_, ?_⟩
  · unfold remove_port
    simp [hs, hp]
  · unfold remove_port
    simp [hs, hp]
  · intro st0 q ts st1 h
    exact (remove_port_ok ports st0 q ts st1 h).1

/-- C1 witness: the amended statement evaluated at the unknown handle 5 on
a valid empty loop. -/
theorem remove_port_unknown_spec_witness :
    (remove_port portsA stEmpty (some 5) []).1 =
      .panic "list: element is not member of this list" :=
  (remove_port_unknown_spec portsA stEmpty 5 [] (by decide) (by decide)).1

/-- C6: if async_close on a port reports it already closed the loop state
is left unchanged; otherwise the port is appended to closing_ports and
nothing else changes; and when wait_port_closed_ returns, the port is no
longer a member of closing_ports. -/
theorem async_close_port_and_wait_spec (ports : PortId → PortModel) (st : LoopState)
    (p : PortId) (events : List PortId) :
    ((ports p).asyncCloseNeeded = false → async_close_port_ ports st p = st) ∧
    ((ports p).asyncCloseNeeded = true →
      async_close_port_ ports st p =
        { st with closing_ports := st.closing_ports ++ [p] }) ∧
    ∀ st' : LoopState, wait_port_closed_ events st p = some st' →
      p ∉ st'.closing_ports := by
  refine ⟨?_, ?_, ?_⟩
  · intro hn
    simp [async_close_port_, hn]
  · intro hn
    simp [async_close_port_, hn]
  · exact fun st' h => wait_port_closed_not_mem events st p st' h

/-- C6 witness: port 0 closes synchronously and leaves the empty loop
unchanged, port 1 is appended to closing_ports, and waiting for port 1
with one close completion returns with port 1 out of closing_ports. -/
theorem async_close_port_and_wait_spec_witness :
    async_close_port_ portsA stEmpty 0 = stEmpty ∧
    async_close_port_ portsA stEmpty 1 =
      { stEmpty with closing_ports := stEmpty.closing_ports ++ [1] } ∧
    (1 : PortId) ∉ stEmpty.closing_ports :=
  ⟨(async_close_port_and_wait_spec portsA stEmpty 0 []).1 (by decide),
   (async_close_port_and_wait_spec portsA stEmpty 1 []).2.1 (by decide),
   (async_close_port_and_wait_spec portsA stClosing1 1 [1]).2.2 stEmpty (by decide)⟩

/-- C8: when the loop thread was never successfully started, the
destructor closes both wakeup handles itself, then runs the reactor once
on the current thread, and only then closes the reactor; it neither
signals the stop wakeup nor joins the thread (shown for both values of
the loop-initialized flag). -/
theorem destructor_never_started_spec :
    destructorActions false true = [.CloseSems, .RunLoop, .CloseLoop] ∧
    destructorActions false false = [.CloseSems] ∧
    (destructorActions false true).contains .SignalStopSem = false ∧
    (destructorActions false true).contains .JoinThread = false ∧
    (destructorActions false false).contains .SignalStopSem = false ∧
    (destructorActions false false).contains .JoinThread = false := by
  decide

/-- C9: handle_closed on a port that is not in closing_ports leaves the
whole loop state unchanged and does not broadcast close_cond; and (since
the intrusive registry list holds a port at most once) running
handle_closed twice for the same port yields the same state as running it
once. -/
theorem handle_closed_idem_spec (st : LoopState) (p : PortId)
    (hnd : st.closing_ports.Nodup) :
    (p ∉ st.closing_ports → handle_closed st p = (st, false)) ∧
    (handle_closed (handle_closed st p).1 p).1 = (handle_closed st p).1 := by
  constructor
  · intro hm
    unfold handle_closed
    rw [if_neg hm]
  · by_cases hm : p ∈ st.closing_ports
    · have h1 : (handle_closed st p).1 =
          { st with closing_ports := st.closing_ports.erase p } := by
        unfold handle_closed
        rw [if_pos hm]


      rw [h1]
      have h2 : p ∉ st.closing_ports.erase p := hnd.not_mem_erase
      simp [handle_closed, h2]
    · have h1 : handle_closed st p = (st, false) := by
        unfold handle_closed
        rw [if_neg hm]
      rw [h1, h1]

/-- C9 witness: the statement evaluated on a loop with closing_ports
equal to the one-element list containing port 1, at the non-member port 5
and at the member port 1. -/
theorem handle_closed_idem_spec_witness :
    handle_closed stClosing1 5 = (stClosing1, false) ∧
    (handle_closed (handle_closed stClosing1 1).1 1).1 = (handle_closed stClosing1 1).1 :=
  ⟨(handle_closed_idem_spec stClosing1 5 (by decide)).1 (by decide),
   (handle_closed_idem_spec stClosing1 1 (by decide)).2⟩

/-- Everything a successful drain guarantees: FIFO order of the processed
tasks, at most one broadcast, a broadcast exactly when some task left
Pending, and untouched start and wakeup flags. -/
theorem process_tasks_ok (env : Env) (st : LoopState) (q : List Task)
    (st' : LoopState) (outs : List Task) (b : Nat)
    (h : process_tasks_ env st q = .ok (st', outs, b)) :
    outs.map Task.tid = q.map Task.tid ∧
    b ≤ 1 ∧
    (b = 1 ↔ outs.any (fun t => decide (t.state ≠ .Pending)) = true) ∧
    st'.started = st.started ∧
    st'.task_sem_inited = st.task_sem_inited ∧
    st'.stop_sem_inited = st.stop_sem_inited := by
  unfold process_tasks_ at h
  cases hg : processGo env q st [] false with
  | panic m => rw [hg] at h; cases h
  | blocked => rw [hg] at h; cases h
  | ok pr =>
      obtain ⟨st1, outs1, notify⟩ := pr
      rw [hg] at h
      simp only [Outcome.ok.injEq, Prod.mk.injEq] at h
      obtain ⟨h1, h2, h3⟩ := h
      obtain ⟨processed, ho, hm, hn, hf1, hf2, hf3⟩ :=
        processGo_spec env q st [] false st1 outs1 notify hg
      rw [Bool.false_or] at hn
      simp only [List.reverse_nil, List.nil_append] at ho
      have hop : outs = processed := h2.symm.trans ho
      subst h1
      refine ⟨?_, ?_, ?_, hf1, hf2, hf3⟩
      · rw [hop]; exact hm
      · rw [← h3]; cases notify <;> simp
      · rw [← h3, hop, ← hn]; cases notify <;> simp

/-- The while loop of async_close_ports_, fully characterized: when the
list argument equals the current open_ports, the loop empties open_ports
and appends exactly the asynchronously closing ports to closing_ports,
leaving the other fields alone. -/
theorem acpGo_spec (ports : PortId → PortModel) :
    ∀ (l : List PortId) (st : LoopState), st.open_ports = l →
      (acpGo ports l st).open_ports = [] ∧
      (acpGo ports l st).closing_ports =
        st.closing_ports ++ l.filter (fun p => (ports p).asyncCloseNeeded) ∧
      (acpGo ports l st).started = st.started ∧
      (acpGo ports l st).task_sem_inited = st.task_sem_inited ∧
      (acpGo ports l st).stop_sem_inited = st.stop_sem_inited := by
  intro l
  induction l with
  | nil =>
      intro st hst
      unfold acpGo
      exact ⟨hst, by simp, rfl, rfl, rfl⟩
  | cons p rest ih =>
      intro st hst
      unfold acpGo
      have hopen : (async_close_port_ ports { st with open_ports := rest } p).open_ports
          = rest := (async_close_port_spec ports { st with open_ports := rest } p).1
      obtain ⟨h1, h2, h3, h4, h5⟩ :=
        ih (async_close_port_ ports { st with open_ports := rest } p) hopen
      obtain ⟨g1, g2, g3, g4, g5⟩ :=
        async_close_port_spec ports { st with open_ports := rest } p
      refine ⟨h1, ?_, h3.trans g2, h4.trans g3, h5.trans g4⟩
      rw [h2, g5]
      by_cases hn : (ports p).asyncCloseNeeded
      · rw [if_pos hn]
        simp [List.filter_cons, hn]
      · rw [if_neg hn]
        simp [List.filter_cons, hn]

/-- C5: a drain of process_tasks_ pops and runs every queued task in FIFO
submission order (the processed output lists the same task identities in
the same order as the queue), broadcasts task_cond at most once, at the
end of the drain, and broadcasts exactly when at least one task state
left Pending during the drain. -/
theorem process_tasks_fifo_spec (env : Env) (st : LoopState) (q : List Task)
    (st' : LoopState) (outs : List Task) (b : Nat)
    (h : process_tasks_ env st q = .ok (st', outs, b)) :
    outs.map Task.tid = q.map Task.tid ∧
    b ≤ 1 ∧
    (b = 1 ↔ outs.any (fun t => decide (t.state ≠ .Pending)) = true) := by
  obtain ⟨h1, h2, h3, _⟩ := process_tasks_ok env st q st' outs b h
  exact ⟨h1, h2, h3⟩

/-- C5 witness: the two-task queue qA drained from the empty loop, with
one broadcast because both tasks left Pending. -/
theorem process_tasks_fifo_spec_witness :
    outsA.map Task.tid = qA.map Task.tid ∧
    1 ≤ 1 ∧
    (1 = 1 ↔ outsA.any (fun t => decide (t.state ≠ .Pending)) = true) :=
  process_tasks_fifo_spec envA stEmpty qA stOpen1 outsA 1 (by decide)

/-- C7: the stop wakeup handler first empties open_ports, moving exactly
the asynchronously closing ports into closing_ports, then closes and
uninitializes both wakeup handles, and then drains the remaining task
queue once more (every remaining task is popped in order; the wakeup
flags are still down afterwards). -/
theorem stop_sem_cb_spec (env : Env) (st : LoopState) (q : List Task) :
    (async_close_ports_ env.ports st).open_ports = [] ∧
    (async_close_ports_ env.ports st).closing_ports =
      st.closing_ports ++ st.open_ports.filter (fun p => (env.ports p).asyncCloseNeeded) ∧
    (close_sems_ (async_close_ports_ env.ports st)).task_sem_inited = false ∧
    (close_sems_ (async_close_ports_ env.ports st)).stop_sem_inited = false ∧
    stop_sem_cb_ env st q =
      process_tasks_ env (close_sems_ (async_close_ports_ env.ports st)) q ∧
    ∀ (st' : LoopState) (outs : List Task) (b : Nat),
      stop_sem_cb_ env st q = .ok (st', outs, b) →
      outs.map Task.tid = q.map Task.tid ∧
      st'.task_sem_inited = false ∧ st'.stop_sem_inited = false := by
  obtain ⟨a1, a2, _, _, _⟩ := acpGo_spec env.ports st.open_ports st rfl
  refine ⟨a1, a2, rfl, rfl, rfl, ?_⟩
  intro st' outs b h
  unfold stop_sem_cb_ at h
  obtain ⟨h1, _, _, _, h5, h6⟩ :=
    process_tasks_ok env (close_sems_ (async_close_ports_ env.ports st)) q st' outs b h
  exact ⟨h1, h5, h6⟩

/-- C7 witness: the stop handler run on a loop with ports 0 and 1 open
and the pending resolve queue qB: port 1 ends in closing_ports, both
wakeup flags end down, and the drained output matches qB. -/
theorem stop_sem_cb_spec_witness :
    outsB.map Task.tid = qB.map Task.tid ∧
    stB.task_sem_inited = false ∧ stB.stop_sem_inited = false :=
  (stop_sem_cb_spec envA stOpen01 qB).2.2.2.2.2 stB outsB 1 (by decide)

/-- C4: whenever run_task_ returns, the submitted task's state is no
longer Pending: the trace of values written to task.state ends in the
returned state, every earlier write is Pending, and exactly one write
moved the task out of Pending (one transition Pending to Succeeded or
Failed before run_task_ returns). -/
theorem run_task_done_spec (env : Env) (st : LoopState) (t : Task)
    (rc : Option Bool) (st' : LoopState) (s : TaskState) (writes : List TaskState)
    (h : run_task_ env st t rc = (.ok (st', s), writes)) :
    s ≠ .Pending ∧
    writes.getLast? = some s ∧
    (∀ w ∈ writes.dropLast, w = .Pending) ∧
    (writes.filter (fun w => decide (w ≠ .Pending))).length = 1 := by
  unfold run_task_ process_tasks_ processGo at h
  cases hd : dispatch env st t with
  | panic m => rw [hd] at h; cases h
  | blocked => rw [hd] at h; cases h
  | ok pr =>
      obtain ⟨st1, t1⟩ := pr
      rw [hd] at h
      simp only [processGo, List.reverse_cons, List.reverse_nil, List.nil_append,
        List.singleton_append] at h
      by_cases hp : t1.state = .Pending
      · rw [if_pos hp] at h
        cases rc with
        | none => cases h
        | some ok =>
            simp only [Prod.mk.injEq, Outcome.ok.injEq] at h
            obtain ⟨⟨hst, hs⟩, hw⟩ := h
            subst hs
            subst hw
            rw [hp]
            cases ok <;> simp
      · rw [if_neg hp] at h
        simp only [Prod.mk.injEq, Outcome.ok.injEq] at h
        obtain ⟨⟨hst, hs⟩, hw⟩ := h
        subst hs
        subst hw
        simp [hp]

/-- C4 witness: an add-receiver task run on the empty loop returns with
its single recorded transition being the returned Succeeded state. -/
theorem run_task_done_spec_witness :
    TaskState.Succeeded ≠ TaskState.Pending ∧
    ([TaskState.Succeeded] : List TaskState).getLast? = some .Succeeded ∧
    (([TaskState.Succeeded] : List TaskState).filter
      (fun w => decide (w ≠ .Pending))).length = 1 :=
  ⟨(run_task_done_spec envA stEmpty { tid := 0, func := .AddReceiver } none
      stOpen1 .Succeeded [.Succeeded] (by decide)).1,
   (run_task_done_spec envA stEmpty { tid := 0, func := .AddReceiver } none
      stOpen1 .Succeeded [.Succeeded] (by decide)).2.1,
   (run_task_done_spec envA stEmpty { tid := 0, func := .AddReceiver } none
      stOpen1 .Succeeded [.Succeeded] (by decide)).2.2.2⟩

/-- Shape of a returning add_udp_receiver call whose port failed to open:
the handle is null, the config is untouched, and the final state is the
one reached by waiting for the async close of the failed port. -/
theorem add_udp_receiver_open_fail_shape (ports : PortId → PortModel) (st : LoopState)
    (rcfg : UdpReceiverConfig) (events : List PortId) (rp : PortId)
    (hs : st.started = true) (ho : (ports rp).openOk = false)
    (res : Option PortId × UdpReceiverConfig × LoopState)
    (hres : add_udp_receiver (some rp) ports st rcfg events = .ok res) :
    ∃ st2, res = (none, rcfg, st2) ∧
      wait_port_closed_ events (async_close_port_ ports st rp) rp = some st2 := by
  unfold add_udp_receiver add_udp_receiver_ at hres
  simp only [hs, if_true, ho, Bool.false_eq_true, if_false, reduceIte] at hres
  cases hw : wait_port_closed_ events (async_close_port_ ports st rp) rp with
  | none => rw [hw] at hres; cases hres
  | some st2 =>
      rw [hw] at hres
      simp only [Outcome.ok.injEq] at hres
      exact ⟨st2, hres.symm, rfl⟩

/-- Shape of a returning add_udp_sender call whose port failed to open:
the handle is null, the config and the writer slot are untouched, and the
final state is the one reached by waiting for the async close of the
failed port. -/
theorem add_udp_sender_open_fail_shape (ports : PortId → PortModel) (st : LoopState)
    (scfg : UdpSenderConfig) (wslot : Option (Option PortId)) (events : List PortId)
    (rp : PortId) (hs : st.started = true) (ho : (ports rp).openOk = false)
    (res : Option PortId × UdpSenderConfig × Option (Option PortId) × LoopState)
    (hres : add_udp_sender (some rp) ports st scfg wslot events = .ok res) :
    ∃ st2, res = (none, scfg, wslot, st2) ∧
      wait_port_closed_ events (async_close_port_ ports st rp) rp = some st2 := by
  unfold add_udp_sender add_udp_sender_ at hres
  simp only [hs, if_true, ho, Bool.false_eq_true, if_false, reduceIte] at hres
  cases hw : wait_port_closed_ events (async_close_port_ ports st rp) rp with
  | none => rw [hw] at hres; cases hres
  | some st2 =>
      rw [hw] at hres
      simp only [Outcome.ok.injEq] at hres
      exact ⟨st2, hres.symm, rfl⟩

/-- C2: a successful add_udp_receiver or add_udp_sender handler rewrites
config.bind_address to the address the port actually bound, appends the
port to open_ports and returns Succeeded; the full call returns the
non-null handle of that port (and, for the sender, stores the writer in a
non-null writer slot), and num_ports grows by exactly one. -/
theorem add_success_spec (alloc : Option PortId) (ports : PortId → PortModel)
    (st : LoopState) (rcfg : UdpReceiverConfig) (scfg : UdpSenderConfig)
    (wslot : Option (Option PortId)) (events : List PortId) (rp : PortId)
    (hs : st.started = true) (ha : alloc = some rp) (ho : (ports rp).openOk = true) :
    add_udp_receiver_ alloc ports rcfg st =
      (.Succeeded, some rp, { rcfg with bind_address := (ports rp).boundAddr },
       { st with open_ports := st.open_ports ++ [rp] }) ∧
    add_udp_receiver alloc ports st rcfg events =
      .ok (some rp, { rcfg with bind_address := (ports rp).boundAddr },
           { st with open_ports := st.open_ports ++ [rp] }) ∧
    add_udp_sender_ alloc ports scfg st =
      (.Succeeded, some rp, some rp, { scfg with bind_address := (ports rp).boundAddr },
       { st with open_ports := st.open_ports ++ [rp] }) ∧
    add_udp_sender alloc ports st scfg wslot events =
      .ok (some rp, { scfg with bind_address := (ports rp).boundAddr },
           wslot.map (fun _ => some rp),
           { st with open_ports := st.open_ports ++ [rp] }) ∧
    num_ports { st with open_ports := st.open_ports ++ [rp] } = num_ports st + 1 := by
  subst ha
  refine ⟨?_, ?_, ?_, ?_, ?_⟩
  · simp [add_udp_receiver_, ho]
  · simp [add_udp_receiver, add_udp_receiver_, hs, ho]
  · simp [add_udp_sender_, ho]
  · simp [add_udp_sender, add_udp_sender_, hs, ho]
  · simp [num_ports]

/-- C2 witness: adding a receiver on port object 1 to the empty loop
returns handle 1, the rewritten bind address, and one open port. -/
theorem add_success_spec_witness :
    add_udp_receiver (some 1) portsA stEmpty ⟨⟨0, 0⟩⟩ [] =
      .ok (some 1, { bind_address := (portsA 1).boundAddr },
           { stEmpty with open_ports := stEmpty.open_ports ++ [1] }) ∧
    num_ports { stEmpty with open_ports := stEmpty.open_ports ++ [1] } =
      num_ports stEmpty + 1 :=
  ⟨(add_success_spec (some 1) portsA stEmpty ⟨⟨0, 0⟩⟩ ⟨⟨0, 0⟩⟩ (some none) [] 1
      (by decide) rfl (by decide)).2.1,
   (add_success_spec (some 1) portsA stEmpty ⟨⟨0, 0⟩⟩ ⟨⟨0, 0⟩⟩ (some none) [] 1
      (by decide) rfl (by decide)).2.2.2.2⟩

/-- C3: a failed add call returns null and leaves num_ports unchanged.
On allocation failure nothing at all changes. On open failure the handler
returns Failed, never adds the port to open_ports, and routes it into
closing_ports exactly when its close is asynchronous; a returning caller
comes back only once the port is no longer in closing_ports, with
open_ports exactly as before the call. -/
theorem add_failure_spec (ports : PortId → PortModel) (st : LoopState)
    (rcfg : UdpReceiverConfig) (scfg : UdpSenderConfig)
    (wslot : Option (Option PortId)) (events : List PortId) (rp : PortId)
    (hs : st.started = true) (ho : (ports rp).openOk = false)
    (hfo : rp ∉ st.open_ports) (hfc : rp ∉ st.closing_ports) :
    (add_udp_receiver none ports st rcfg events = .ok (none, rcfg, st) ∧
     add_udp_sender none ports st scfg wslot events = .ok (none, scfg, wslot, st)) ∧
    ((add_udp_receiver_ (some rp) ports rcfg st).1 = .Failed ∧
     (add_udp_receiver_ (some rp) ports rcfg st).2.2.2.open_ports = st.open_ports ∧
     rp ∉ (add_udp_receiver_ (some rp) ports rcfg st).2.2.2.open_ports ∧
     (rp ∈ (add_udp_receiver_ (some rp) ports rcfg st).2.2.2.closing_ports ↔
       (ports rp).asyncCloseNeeded = true)) ∧
    ((add_udp_sender_ (some rp) ports scfg st).1 = .Failed ∧
     (add_udp_sender_ (some rp) ports scfg st).2.2.2.2.open_ports = st.open_ports ∧
     rp ∉ (add_udp_sender_ (some rp) ports scfg st).2.2.2.2.open_ports ∧
     (rp ∈ (add_udp_sender_ (some rp) ports scfg st).2.2.2.2.closing_ports ↔
       (ports rp).asyncCloseNeeded = true)) ∧
    (∀ res, add_udp_receiver (some rp) ports st rcfg events = .ok res →
      res.1 = none ∧ res.2.2.open_ports = st.open_ports ∧
      num_ports res.2.2 = num_ports st ∧
      rp ∉ res.2.2.closing_ports ∧ rp ∉ res.2.2.open_ports) ∧
    (∀ res, add_udp_sender (some rp) ports st scfg wslot events = .ok res →
      res.1 = none ∧ res.2.2.2.open_ports = st.open_ports ∧
      num_ports res.2.2.2 = num_ports st ∧
      rp ∉ res.2.2.2.closing_ports ∧ rp ∉ res.2.2.2.open_ports) := by
  obtain ⟨ac1, _, _, _, ac5⟩ := async_close_port_spec ports st rp
  have hmem : rp ∈ (async_close_port_ ports st rp).closing_ports ↔
      (ports rp).asyncCloseNeeded = true := by
    rw [ac5]
    by_cases hn : (ports rp).asyncCloseNeeded
    · simp [hn]
    · simp [hn, hfc]
  refine ⟨⟨?_, ?_⟩, ⟨?_, ?_, ?_, ?_⟩, ⟨?_, ?_, ?_, ?_⟩, ?_, ?_⟩
  · simp [add_udp_receiver, add_udp_receiver_, hs]
  · simp [add_udp_sender, add_udp_sender_, hs]
  · simp [add_udp_receiver_, ho]
  · simp only [add_udp_receiver_, ho, Bool.false_eq_true, if_false]
    exact ac1
  · simp only [add_udp_receiver_, ho, Bool.false_eq_true, if_false]
    rw [ac1]
    exact hfo
  · simp only [add_udp_receiver_, ho, Bool.false_eq_true, if_false]
    exact hmem
  · simp [add_udp_sender_, ho]
  · simp only [add_udp_sender_, ho, Bool.false_eq_true, if_false]
    exact ac1
  · simp only [add_udp_sender_, ho, Bool.false_eq_true, if_false]
    rw [ac1]
    exact hfo
  · simp only [add_udp_sender_, ho, Bool.false_eq_true, if_false]
    exact hmem
  · intro res hres
    obtain ⟨st2, hr, hw⟩ := add_udp_receiver_open_fail_shape ports st rcfg events rp hs ho res hres
    obtain ⟨w1, _, _, _⟩ := wait_port_closed_frame events (async_close_port_ ports st rp) rp st2 hw
    have hopen : st2.open_ports = st.open_ports := w1.trans ac1
    subst hr
    exact ⟨rfl, hopen, by simp [num_ports, hopen],
      wait_port_closed_not_mem events _ rp st2 hw, hopen ▸ hfo⟩
  · intro res hres
    obtain ⟨st2, hr, hw⟩ :=
      add_udp_sender_open_fail_shape ports st scfg wslot events rp hs ho res hres
    obtain ⟨w1, _, _, _⟩ := wait_port_closed_frame events (async_close_port_ ports st rp) rp st2 hw
    have hopen : st2.open_ports = st.open_ports := w1.trans ac1
    subst hr
    exact ⟨rfl, hopen, by simp [num_ports, hopen],
      wait_port_closed_not_mem events _ rp st2 hw, hopen ▸ hfo⟩

/-- C3 witness: adding a receiver on port object 2 (whose open fails and
whose close is asynchronous) to the empty loop, with the close completion
delivered, returns null with no open ports and port 2 gone from
closing_ports. -/
theorem add_failure_spec_witness :
    (none : Option PortId) = none ∧
    stEmpty.open_ports = stEmpty.open_ports ∧
    num_ports stEmpty = num_ports stEmpty ∧
    (2 : PortId) ∉ stEmpty.closing_ports ∧ (2 : PortId) ∉ stEmpty.open_ports :=
  (add_failure_spec portsA stEmpty ⟨⟨0, 0⟩⟩ ⟨⟨0, 0⟩⟩ (some none) [2] 2
      (by decide) (by decide) (by decide) (by decide)).2.2.2.1
    (none, ⟨⟨0, 0⟩⟩, stEmpty) (by decide)

/-- C10: failed add calls do not write the outputs. On a failed
add_udp_sender the writer slot keeps its prior value, and on any failed
add call the config (hence its bind_address) is returned unmodified, for
both the allocation-failure and the open-failure paths. -/
theorem add_failure_frame_spec (ports : PortId → PortModel) (st : LoopState)
    (rcfg : UdpReceiverConfig) (scfg : UdpSenderConfig)
    (wslot : Option (Option PortId)) (events : List PortId) (rp : PortId)
    (hs : st.started = true) :
    (∀ res, add_udp_receiver none ports st rcfg events = .ok res → res.2.1 = rcfg) ∧
    (∀ res, add_udp_sender none ports st scfg wslot events = .ok res →
      res.2.2.1 = wslot ∧ res.2.1 = scfg) ∧
    ((ports rp).openOk = false →
      (∀ res, add_udp_receiver (some rp) ports st rcfg events = .ok res →
        res.2.1 = rcfg) ∧
      (∀ res, add_udp_sender (some rp) ports st scfg wslot events = .ok res →
        res.2.2.1 = wslot ∧ res.2.1 = scfg)) := by
  refine ⟨?_, ?_, ?_⟩
  · intro res hres
    simp only [add_udp_receiver, add_udp_receiver_, hs, if_true, reduceIte,
      Outcome.ok.injEq] at hres
    rw [← hres]
  · intro res hres
    simp only [add_udp_sender, add_udp_sender_, hs, if_true, reduceIte,
      Outcome.ok.injEq] at hres
    rw [← hres]
    exact ⟨rfl, rfl⟩
  · intro ho
    constructor
    · intro res hres
      obtain ⟨st2, hr, _⟩ :=
        add_udp_receiver_open_fail_shape ports st rcfg events rp hs ho res hres
      rw [hr]
    · intro res hres
      obtain ⟨st2, hr, _⟩ :=
        add_udp_sender_open_fail_shape ports st scfg wslot events rp hs ho res hres
      rw [hr]
      exact ⟨rfl, rfl⟩

/-- C10 witness: a sender add that fails to open on port object 2 leaves
the writer slot and the config exactly as they were. -/
theorem add_failure_frame_spec_witness :
    (some (none : Option PortId)) = some none ∧
    ({ bind_address := ⟨0, 0⟩ } : UdpSenderConfig) = { bind_address := ⟨0, 0⟩ } :=
  ((add_failure_frame_spec portsA stEmpty ⟨⟨0, 0⟩⟩ ⟨⟨0, 0⟩⟩ (some none) [2] 2
      (by decide)).2.2 (by decide)).2 (none, ⟨⟨0, 0⟩⟩, some none, stEmpty) (by decide)

end RocNetio
